import Mathlib

/-!
Verification of the token-stream rewriter of the `daywalker` crate
(`src/lib.rs`).  The crate exposes a procedural macro whose core is
`impl Process for TokenStream`: a single left-to-right pass over a token
stream holding back at most two pending `+`/`-` punctuation atoms, which
resolves a pending pair followed by a group as a conditional block and
otherwise flushes the pending atoms and recurses into groups.

The embedding below mirrors the Rust source construct by construct:

* `Spacing` ↔ `proc_macro::Spacing` (`Joint` / `Alone`);
* `Delimiter` ↔ `proc_macro::Delimiter`;
* `TokenTree` ↔ `proc_macro::TokenTree` (`Punct`, `Group`, `Ident`,
  `Literal`), with source spans modelled as natural numbers;
* `processStream m p0 p1 l` ↔ the `for token in self` loop of
  `TokenStream::process`, with `prev = [p0, p1]` the two-slot pending
  buffer and `m` the value of `cfg!(feature = "nightly")`;
* `process` / `rewrite` ↔ `TokenStream::process` from the empty buffer,
  which is exactly what the `nightly` entry point invokes.

Note that the Rust loop body returns `stream` directly after the loop:
there is no post-loop flush of the pending buffer, and the embedding
reproduces that (the `[]` case of `processStream` discards `p0`/`p1`).
-/

namespace Daywalker

/-- Spacing of a punctuation token, mirroring `proc_macro::Spacing`. -/
inductive Spacing where
  | joint
  | alone
deriving DecidableEq

/-- Group delimiter kind, mirroring `proc_macro::Delimiter`. -/
inductive Delimiter where
  | parenthesis
  | brace
  | bracket
  | none
deriving DecidableEq

/-- Token trees, mirroring `proc_macro::TokenTree`.  Spans are modelled as
natural numbers; identifiers and literals carry their text. -/
inductive TokenTree where
  | punct (ch : Char) (spacing : Spacing) (span : Nat)
  | group (delim : Delimiter) (stream : List TokenTree) (span : Nat)
  | ident (name : String) (span : Nat)
  | lit (text : String) (span : Nat)

mutual

/-- Size measure on token trees, used for termination of the rewriter. -/
def TokenTree.size : TokenTree → Nat
  | .punct _ _ _ => 1
  | .ident _ _ => 1
  | .lit _ _ => 1
  | .group _ ts _ => 1 + 2 * sizeList ts + ts.length

/-- Size measure on token lists. -/
def sizeList : List TokenTree → Nat
  | [] => 0
  | t :: rest => TokenTree.size t + sizeList rest

end

/-- Size of an optional buffered token. -/
def optSize : Option TokenTree → Nat
  | Option.none => 0
  | Option.some t => t.size

/-- The loop of `TokenStream::process` in `src/lib.rs`.  `m` is the value of
`cfg!(feature = "nightly")`; `p0`, `p1` are the two slots of the `prev`
buffer (`prev[0]`, `prev[1]`), both taken at the start of each iteration.
The four match arms correspond one to one with the four arms of the Rust
`match (prev[0].take(), prev[1].take(), token)`:

1. save a first joint `+`/`-` punct into `prev[1]`;
2. save a second same-character alone punct (completing the pair);
3. a complete pair followed by a group: splice the group's raw stream when
   the pair's character selects the current mode, else drop the block;
4. otherwise flush whatever is pending and the current token, recursing
   into groups (`grp.process()` rebuilds the group with the same delimiter
   and span around the processed contents).

When the input list is exhausted the Rust function returns `stream`
without flushing `prev`, so the `[]` case discards the buffer. -/
def processStream (m : Bool) : Option TokenTree → Option TokenTree → List TokenTree → List TokenTree
  | _, _, [] => []
  | Option.none, Option.none, TokenTree.punct c s sp :: rest =>
    if (c = '+' ∨ c = '-') ∧ s = Spacing.joint then
      processStream m Option.none (Option.some (TokenTree.punct c s sp)) rest
    else
      TokenTree.punct c s sp :: processStream m Option.none Option.none rest
  | Option.none, Option.some (TokenTree.punct c s sp), TokenTree.punct c2 s2 sp2 :: rest =>
    if c = c2 ∧ s2 = Spacing.alone then
      processStream m (Option.some (TokenTree.punct c s sp))
        (Option.some (TokenTree.punct c2 s2 sp2)) rest
    else
      TokenTree.punct c s sp :: TokenTree.punct c2 s2 sp2 ::
        processStream m Option.none Option.none rest
  | Option.some (TokenTree.punct c s sp), Option.some (TokenTree.punct c2 s2 sp2),
      TokenTree.group d ts sg :: rest =>
    (if (c = '+') ↔ (m = true) then ts else []) ++
      processStream m Option.none Option.none rest
  | p0, p1, t :: rest =>
    (match p0 with
     | Option.some (TokenTree.group d ts sg) =>
       [TokenTree.group d (processStream m Option.none Option.none ts) sg]
     | Option.some v => [v]
     | Option.none => []) ++
    (match p1 with
     | Option.some (TokenTree.group d ts sg) =>
       [TokenTree.group d (processStream m Option.none Option.none ts) sg]
     | Option.some v => [v]
     | Option.none => []) ++
    (match t with
     | TokenTree.group d ts sg =>
       [TokenTree.group d (processStream m Option.none Option.none ts) sg]
     | v => [v]) ++
    processStream m Option.none Option.none rest
termination_by p0 p1 l => 2 * (optSize p0 + optSize p1 + sizeList l) + l.length
decreasing_by
  all_goals simp only [optSize, sizeList, TokenTree.size, List.length_cons]
  all_goals omega

/-- `TokenStream::process` as invoked on a whole stream (empty buffer). -/
def process (m : Bool) (input : List TokenTree) : List TokenTree :=
  processStream m Option.none Option.none input

/-- `Group::process` in `src/lib.rs`: rebuild the group with the same
delimiter around the processed contents and copy the span. -/
def groupProcess (m : Bool) (d : Delimiter) (ts : List TokenTree) (sg : Nat) : TokenTree :=
  TokenTree.group d (process m ts) sg

/-- The transformation contract of the spec: `rewrite(tokens, mode)`.  The
`nightly` proc-macro entry point is `input.process()` with the mode fixed
to `cfg!(feature = "nightly")`. -/
def rewrite (input : List TokenTree) (m : Bool) : List TokenTree :=
  process m input

/-- Whether three consecutive tokens form a Marker followed by a Group: a
joint `+`/`-` punct, an alone punct of the same character, then a group. -/
def markerTriple : TokenTree → TokenTree → TokenTree → Bool
  | TokenTree.punct c Spacing.joint _, TokenTree.punct c2 Spacing.alone _,
      TokenTree.group _ _ _ =>
    (c == '+' || c == '-') && c == c2
  | _, _, _ => false

mutual

/-- Whether a token tree contains a Marker pattern inside any group. -/
def hasMarkerTree : TokenTree → Bool
  | TokenTree.group _ ts _ => hasMarkerList ts
  | _ => false

/-- Whether a token list contains a Marker pattern (a `markerTriple` of
consecutive tokens) at any nesting level. -/
def hasMarkerList : List TokenTree → Bool
  | [] => false
  | t :: rest =>
    hasMarkerTree t ||
    (match rest with
     | b :: g :: _ => markerTriple t b g
     | _ => false) ||
    hasMarkerList rest

end

/-- C1: the spec states that pending marker atoms remaining at end of
stream are flushed unchanged, so `foo ++` should rewrite to `foo ++`.
The code instead returns `stream` directly after the loop with no
post-loop flush, so the two pending `+` atoms are silently dropped and
`foo ++` rewrites to `foo` in both modes.  This theorem evaluates the
code at that failing input. -/
theorem c1_trailing_marker_dropped :
    rewrite [TokenTree.ident "foo" 0, TokenTree.punct '+' Spacing.joint 1,
      TokenTree.punct '+' Spacing.alone 2] true = [TokenTree.ident "foo" 0] ∧
    rewrite [TokenTree.ident "foo" 0, TokenTree.punct '+' Spacing.joint 1,
      TokenTree.punct '+' Spacing.alone 2] false = [TokenTree.ident "foo" 0] := by
  constructor <;> simp [rewrite, process, processStream]

/-- C2: the spec states that any token sequence with no Marker pattern is
returned unchanged for both modes.  The sequence `x ++` (ident, joint `+`,
alone `+`, end of stream) contains no Marker pattern, yet the code drops
the two trailing atoms (missing end-of-stream flush) and returns `x` for
both modes.  This theorem evaluates the code at that failing input. -/
theorem c2_passthrough_fails_on_trailing_atoms :
    hasMarkerList [TokenTree.ident "x" 0, TokenTree.punct '+' Spacing.joint 1,
      TokenTree.punct '+' Spacing.alone 2] = false ∧
    rewrite [TokenTree.ident "x" 0, TokenTree.punct '+' Spacing.joint 1,
      TokenTree.punct '+' Spacing.alone 2] true = [TokenTree.ident "x" 0] ∧
    rewrite [TokenTree.ident "x" 0, TokenTree.punct '+' Spacing.joint 1,
      TokenTree.punct '+' Spacing.alone 2] false = [TokenTree.ident "x" 0] := by
  refine ⟨?_, ?_, ?_⟩ <;>
    simp [rewrite, process, processStream, hasMarkerList, hasMarkerTree, markerTriple]

/-- C3 counterexample: for `A = x`, rewriting `++[ --[x] ]` in mode `true`
does not equal rewriting `x` in mode `false`: the surviving block's
contents are spliced verbatim (`grp.stream()`, not `grp.process()`), so
the output is the literal `--[x]`, while `rewrite(x, false) = x`. -/
theorem c3_counterexample :
    rewrite [TokenTree.punct '+' Spacing.joint 0, TokenTree.punct '+' Spacing.alone 1,
      TokenTree.group Delimiter.bracket
        [TokenTree.punct '-' Spacing.joint 2, TokenTree.punct '-' Spacing.alone 3,
         TokenTree.group Delimiter.bracket [TokenTree.ident "x" 4] 5] 6] true
      ≠ rewrite [TokenTree.ident "x" 4] false := by
  simp [rewrite, process, processStream]

/-- C3 amended: for input `++[ --[A] ]`, rewrite in mode `true` yields the
raw sequence `--[A]` exactly as stored in the group: the contents of a
surviving conditional block are emitted verbatim and inner conditional
blocks in them are not resolved. -/
theorem c3_splice_is_verbatim (A : List TokenTree) (d d2 : Delimiter)
    (s0 s1 s2 s3 s4 s5 : Nat) :
    rewrite [TokenTree.punct '+' Spacing.joint s0, TokenTree.punct '+' Spacing.alone s1,
      TokenTree.group d
        [TokenTree.punct '-' Spacing.joint s2, TokenTree.punct '-' Spacing.alone s3,
         TokenTree.group d2 A s4] s5] true
      = [TokenTree.punct '-' Spacing.joint s2, TokenTree.punct '-' Spacing.alone s3,
         TokenTree.group d2 A s4] := by
  simp [rewrite, process, processStream]

/-- C4 counterexample: rewriting `++[ ++[y] ]` in mode `true` splices the
contents `++[y]` verbatim, so the output contains a full Marker sequence
(joint `+`, alone `+`, group), refuting the claim that the output never
contains a Marker sequence. -/
theorem c4_counterexample :
    hasMarkerList (rewrite [TokenTree.punct '+' Spacing.joint 0,
      TokenTree.punct '+' Spacing.alone 1,
      TokenTree.group Delimiter.bracket
        [TokenTree.punct '+' Spacing.joint 2, TokenTree.punct '+' Spacing.alone 3,
         TokenTree.group Delimiter.bracket [TokenTree.ident "y" 4] 5] 6] true) = true := by
  simp [rewrite, process, processStream, hasMarkerList, hasMarkerTree, markerTriple]

/-- C4 amended: every Marker the scanner recognizes is fully consumed: a
pair of same-character `+`/`-` atoms (first joint, second alone)
immediately followed by a group is resolved to either the group's raw
contents (when the character selects the mode) or nothing, and neither
the pair atoms nor the group wrapper are ever emitted.  Marker sequences
can still appear in the output, but only as verbatim copies of spliced
contents or re-juxtaposed flushed atoms. -/
theorem c4_recognized_block_fully_consumed (c : Char) (h : c = '+' ∨ c = '-')
    (m : Bool) (s1 s2 : Nat) (d : Delimiter) (A : List TokenTree) (sg : Nat) :
    process m [TokenTree.punct c Spacing.joint s1, TokenTree.punct c Spacing.alone s2,
      TokenTree.group d A sg] = if (c = '+') ↔ (m = true) then A else [] := by
  rcases h with h | h <;> subst h <;> cases m <;> simp [process, processStream]

/-- C4 witness: the amended theorem applied at character `-`, mode `false`
and contents `w`: the block resolves to its contents. -/
theorem c4_recognized_block_fully_consumed_witness :
    (('-' : Char) = '+' ∨ ('-' : Char) = '-') ∧
    process false [TokenTree.punct '-' Spacing.joint 0, TokenTree.punct '-' Spacing.alone 1,
      TokenTree.group Delimiter.bracket [TokenTree.ident "w" 2] 3]
      = if (('-' : Char) = '+') ↔ (false = true) then [TokenTree.ident "w" 2] else [] :=
  ⟨Or.inr rfl, c4_recognized_block_fully_consumed '-' (Or.inr rfl) false 0 1
    Delimiter.bracket [TokenTree.ident "w" 2] 3⟩

/-- C5: for input `++[A] --[B]` with both markers tokenized as a joint
atom followed by an alone atom and a bracket group, rewrite in mode
`true` returns exactly `A` and rewrite in mode `false` returns exactly
`B`, for arbitrary non-empty `A` and `B`. -/
theorem c5_mode_selection (A B : List TokenTree) (hA : A ≠ []) (hB : B ≠ [])
    (s0 s1 s2 s3 s4 s5 : Nat) :
    rewrite [TokenTree.punct '+' Spacing.joint s0, TokenTree.punct '+' Spacing.alone s1,
      TokenTree.group Delimiter.bracket A s2,
      TokenTree.punct '-' Spacing.joint s3, TokenTree.punct '-' Spacing.alone s4,
      TokenTree.group Delimiter.bracket B s5] true = A ∧
    rewrite [TokenTree.punct '+' Spacing.joint s0, TokenTree.punct '+' Spacing.alone s1,
      TokenTree.group Delimiter.bracket A s2,
      TokenTree.punct '-' Spacing.joint s3, TokenTree.punct '-' Spacing.alone s4,
      TokenTree.group Delimiter.bracket B s5] false = B := by
  constructor <;> simp [rewrite, process, processStream]

/-- C5 witness: the mode-selection theorem applied at `A = a`, `B = b`. -/
theorem c5_mode_selection_witness :
    ([TokenTree.ident "a" 0] ≠ ([] : List TokenTree)) ∧
    ([TokenTree.ident "b" 0] ≠ ([] : List TokenTree)) ∧
    (rewrite [TokenTree.punct '+' Spacing.joint 0, TokenTree.punct '+' Spacing.alone 1,
      TokenTree.group Delimiter.bracket [TokenTree.ident "a" 0] 2,
      TokenTree.punct '-' Spacing.joint 3, TokenTree.punct '-' Spacing.alone 4,
      TokenTree.group Delimiter.bracket [TokenTree.ident "b" 0] 5] true
        = [TokenTree.ident "a" 0] ∧
    rewrite [TokenTree.punct '+' Spacing.joint 0, TokenTree.punct '+' Spacing.alone 1,
      TokenTree.group Delimiter.bracket [TokenTree.ident "a" 0] 2,
      TokenTree.punct '-' Spacing.joint 3, TokenTree.punct '-' Spacing.alone 4,
      TokenTree.group Delimiter.bracket [TokenTree.ident "b" 0] 5] false
        = [TokenTree.ident "b" 0]) :=
  ⟨by simp, by simp,
    c5_mode_selection [TokenTree.ident "a" 0] [TokenTree.ident "b" 0]
      (by simp) (by simp) 0 1 2 3 4 5⟩

/-- C6 counterexample: for `A = ++[y]`, the sequence `+ [A]` (alone `+`
followed by a bracket group) is not returned unchanged: the lone `+`
passes through but the group's contents are recursively rewritten, so the
inner conditional block is resolved and the output differs from the
input. -/
theorem c6_counterexample :
    rewrite [TokenTree.punct '+' Spacing.alone 0,
      TokenTree.group Delimiter.bracket
        [TokenTree.punct '+' Spacing.joint 1, TokenTree.punct '+' Spacing.alone 2,
         TokenTree.group Delimiter.bracket [TokenTree.ident "y" 3] 4] 5] true
      ≠ [TokenTree.punct '+' Spacing.alone 0,
      TokenTree.group Delimiter.bracket
        [TokenTree.punct '+' Spacing.joint 1, TokenTree.punct '+' Spacing.alone 2,
         TokenTree.group Delimiter.bracket [TokenTree.ident "y" 3] 4] 5] := by
  simp [rewrite, process, processStream]

/-- C6 amended: non-marker lookalikes pass through with their original
spacing: for `+ [A]` (alone `+` then a group) and `+x[A]` (a `+` followed
by a different second token then a group) the `+` atom and the
intervening token are emitted unchanged for both modes, and the group is
rebuilt with the same delimiter and span around the rewrite of its
contents; in particular the whole sequence is unchanged exactly when `A`
is unchanged by rewrite. -/
theorem c6_lookalike_passes_through (m : Bool) (s0 sx : Nat) (d : Delimiter)
    (A : List TokenTree) (sg : Nat) :
    rewrite [TokenTree.punct '+' Spacing.alone s0, TokenTree.group d A sg] m
      = [TokenTree.punct '+' Spacing.alone s0, TokenTree.group d (process m A) sg] ∧
    rewrite [TokenTree.punct '+' Spacing.alone s0, TokenTree.ident "x" sx,
      TokenTree.group d A sg] m
      = [TokenTree.punct '+' Spacing.alone s0, TokenTree.ident "x" sx,
         TokenTree.group d (process m A) sg] := by
  constructor <;> simp [rewrite, process, processStream]

/-- C7: rewrite is a deterministic function of the pair (input, mode): any
two runs on equal inputs with equal modes produce equal outputs.  The
embedding is a total pure function, matching the source, whose only
external input is the compile-time `cfg!(feature = "nightly")` flag
modelled as the mode argument. -/
theorem c7_deterministic_pure (ts1 ts2 : List TokenTree) (m1 m2 : Bool)
    (hts : ts1 = ts2) (hm : m1 = m2) : rewrite ts1 m1 = rewrite ts2 m2 := by
  subst hts
  subst hm
  rfl

/-- C7 witness: determinism applied at a concrete input and mode. -/
theorem c7_deterministic_pure_witness :
    ([TokenTree.ident "k" 0] = [TokenTree.ident "k" 0]) ∧ (true = true) ∧
    rewrite [TokenTree.ident "k" 0] true = rewrite [TokenTree.ident "k" 0] true :=
  ⟨rfl, rfl,
    c7_deterministic_pure [TokenTree.ident "k" 0] [TokenTree.ident "k" 0] true true rfl rfl⟩

/-- C8: when rewrite recurses into a group that is not part of a
conditional block (here: a group reached with an empty pending buffer),
the emitted group keeps the original delimiter and span and only the
child sequence is rewritten, and the rest of the stream is processed
independently. -/
theorem c8_group_recursion_frame (m : Bool) (d : Delimiter) (ts : List TokenTree)
    (sg : Nat) (rest : List TokenTree) :
    process m (TokenTree.group d ts sg :: rest)
      = TokenTree.group d (process m ts) sg :: process m rest := by
  simp [process, processStream]

/-- C9: the marker-resolution arm matches any group, with no constraint on
its delimiter: a `+` pair followed by a group of any delimiter kind
resolves exactly like `++[A]`, yielding the contents in mode `true` and
nothing in mode `false`. -/
theorem c9_any_delimiter_conditional (m : Bool) (d : Delimiter) (A : List TokenTree)
    (s1 s2 sg : Nat) :
    process m [TokenTree.punct '+' Spacing.joint s1, TokenTree.punct '+' Spacing.alone s2,
      TokenTree.group d A sg] = (if m then A else []) ∧
    process m [TokenTree.punct '+' Spacing.joint s1, TokenTree.punct '+' Spacing.alone s2,
      TokenTree.group d A sg]
      = process m [TokenTree.punct '+' Spacing.joint s1, TokenTree.punct '+' Spacing.alone s2,
          TokenTree.group Delimiter.bracket A sg] := by
  constructor <;> simp [process, processStream]

/-- C10: for `++++[A]` tokenized as four `+` atoms with spacing joint,
joint, joint, alone followed by a group, the second atom aborts the first
marker attempt, the first two atoms are emitted unchanged, and the last
two atoms together with the group are resolved as a conditional block;
the aborting atom is emitted immediately and never restarts a marker. -/
theorem c10_aborted_attempt_emitted (m : Bool) (d : Delimiter) (A : List TokenTree)
    (s1 s2 s3 s4 sg : Nat) :
    process m [TokenTree.punct '+' Spacing.joint s1, TokenTree.punct '+' Spacing.joint s2,
      TokenTree.punct '+' Spacing.joint s3, TokenTree.punct '+' Spacing.alone s4,
      TokenTree.group d A sg]
      = TokenTree.punct '+' Spacing.joint s1 :: TokenTree.punct '+' Spacing.joint s2 ::
        (if m then A else []) := by
  simp [process, processStream]

end Daywalker
